import Mathlib

/-!
Verification of the transmission state manager of the galacticpirateradio
site backend (src/main.rs).  The Rust functions are embedded as pure Lean
functions: `u64`/`usize` become `Nat` (Rust `saturating_sub` is exactly
truncated `Nat` subtraction), `i64`/`i32` become `Int` with the final
`as i32` cast modelled explicitly, the in-place mutation of
`maybe_generate_transmission` becomes explicit state passing returning the
`bool` together with the new state, and the file read / JSON parse at the
front of `load_transmissions` becomes an `Option TransmissionState`
argument (`none` = read error or parse error).
-/

/-- Rust constant `GENERATION_INTERVAL_SECS: u64 = 3 * 60 * 60`. -/
def GENERATION_INTERVAL_SECS : Nat := 3 * 60 * 60

/-- Rust constant `MAX_TRANSMISSIONS: usize = 12`. -/
def MAX_TRANSMISSIONS : Nat := 12

/-- Rust struct `TransmissionEntry`. -/
structure TransmissionEntry where
  timestamp : Nat
  time_label : String
  message : String
deriving Repr, DecidableEq

/-- Rust struct `TransmissionState`. -/
structure TransmissionState where
  last_generated_at : Nat
  entries : List TransmissionEntry
deriving Repr, DecidableEq

/-- Zero-padding to width two, as Rust `format` with `:02` does on the
hour/minute/second values (all below 60, so padding beyond two digits
never arises). -/
def pad2 (n : Nat) : String :=
  if n < 10 then "0" ++ toString n else toString n

/-- Rust `clock_label_from_unix`. -/
def clock_label_from_unix (unix_seconds : Nat) : String :=
  let seconds_today := unix_seconds % 86400
  let hour := seconds_today / 3600
  let minute := (seconds_today % 3600) / 60
  let second := seconds_today % 60
  pad2 hour ++ ":" ++ pad2 minute ++ ":" ++ pad2 second

/-- Rust `generate_scifi_message`.  Indexing `subjects[s]` is in bounds
because each index is reduced modulo the list length; `List.getD` with an
irrelevant default renders it totally. -/
def generate_scifi_message (now : Nat) (entry_count : Nat) : String :=
  let subjects := ["Long-range scanner", "Relay drone", "Pirate beacon",
    "Outer rim array", "Subspace receiver", "Navigation core"]
  let actions := ["locked onto", "decoded", "flagged", "stabilized",
    "rerouted", "intercepted"]
  let objects := ["a drifting colony ping", "an encrypted trader channel",
    "a rogue moon telemetry burst", "a hidden wormhole marker",
    "an ion storm distress packet", "a ghost-fleet handshake"]
  let s := (now / 7 + entry_count * 3) % subjects.length
  let a := (now / 11 + entry_count * 5) % actions.length
  let o := (now / 13 + entry_count * 7) % objects.length
  subjects.getD s "" ++ " " ++ actions.getD a "" ++ " " ++ objects.getD o "" ++ "."

/-- Rust `maybe_generate_transmission` (state passed and returned instead
of mutated; the returned `Bool` is the Rust return value).  `insert(0, e)`
followed by `truncate(MAX_TRANSMISSIONS)` is `(e :: entries).take
MAX_TRANSMISSIONS`; `now.saturating_sub(last)` is `Nat` subtraction. -/
def maybe_generate_transmission (state : TransmissionState) (now : Nat) :
    Bool × TransmissionState :=
  if now - state.last_generated_at < GENERATION_INTERVAL_SECS then
    (false, state)
  else
    let message := generate_scifi_message now state.entries.length
    let entries :=
      ({ timestamp := now, time_label := clock_label_from_unix now,
         message := message } :: state.entries).take MAX_TRANSMISSIONS
    (true, { last_generated_at := now, entries := entries })

/-- Rust `default_transmissions`, with the load-time clock reading
`unix_now_secs()` passed in as `now`. -/
def default_transmissions (now : Nat) : TransmissionState :=
  { last_generated_at := now,
    entries :=
      [{ timestamp := now - 1200,
         time_label := clock_label_from_unix (now - 1200),
         message := "Uplink stabilized. Archive index pushed to public relay." },
       { timestamp := now - 3300,
         time_label := clock_label_from_unix (now - 3300),
         message := "Detected repeating pattern in ambient static. Logged as anomaly A-17." },
       { timestamp := now - 5800,
         time_label := clock_label_from_unix (now - 5800),
         message := "Scheduled new broadcast: Deep Space Transmitter." }] }

/-- Rust `load_transmissions`.  The file read plus JSON deserialization is
modelled by `parsed : Option TransmissionState` (`none` covers both a read
failure and a parse failure), and the load-time clock reading by `now`.
The returned `Bool` records whether `persist_transmissions` was attempted
(the Rust code ignores its result with `let _ = ...`). -/
def load_transmissions (parsed : Option TransmissionState) (now : Nat) :
    TransmissionState × Bool :=
  match parsed with
  | some state =>
      if state.entries.isEmpty then (default_transmissions now, true)
      else (state, false)
  | none => (default_transmissions now, true)

/-- Rust `as i32` cast on an `i64` value: wrap into the interval
`[-2 ^ 31, 2 ^ 31)`. -/
def wrap_i32 (n : Int) : Int :=
  Int.emod (n + 2 ^ 31) (2 ^ 32) - 2 ^ 31

/-- Rust `year_from_unix_days`.  `div_euclid` is `Int.ediv`; the `i64`
operator `/` truncates toward zero and is `Int.tdiv`; the final `as i32`
is `wrap_i32`. -/
def year_from_unix_days (days_since_epoch : Int) : Int :=
  let z := days_since_epoch + 719468
  let era := Int.ediv (if 0 ≤ z then z else z - 146096) 146097
  let doe := z - era * 146097
  let yoe := Int.ediv (doe - Int.tdiv doe 1460 + Int.tdiv doe 36524 - Int.tdiv doe 146096) 365
  let year := yoe + era * 400
  let doy := doe - (365 * yoe + Int.tdiv yoe 4 - Int.tdiv yoe 100)
  let mp := Int.ediv (5 * doy + 2) 153
  let month := mp + if mp < 10 then 3 else -9
  wrap_i32 (year + if month ≤ 2 then 1 else 0)

/-- Modelled from the spec: the number of proleptic-Gregorian leap years
strictly before year `y` (floor divisions, valid for negative years). -/
def leapYearsBefore (y : Int) : Int :=
  Int.ediv (y - 1) 4 - Int.ediv (y - 1) 100 + Int.ediv (y - 1) 400

/-- Modelled from the spec: the Unix epoch-day count of January 1 of
proleptic-Gregorian year `y`.  A day count `d` lies in year `y` exactly
when `daysToYear y ≤ d < daysToYear (y + 1)`. -/
def daysToYear (y : Int) : Int :=
  365 * (y - 1970) + (leapYearsBefore y - leapYearsBefore 1970)

lemma interval_eq : GENERATION_INTERVAL_SECS = 10800 := rfl

/-- The refresh gate is shut: no entry, no change, `false` returned. -/
lemma maybe_generate_not_due (s : TransmissionState) (now : Nat)
    (h : now - s.last_generated_at < GENERATION_INTERVAL_SECS) :
    maybe_generate_transmission s now = (false, s) := by
  unfold maybe_generate_transmission
  rw [if_pos h]

/-- The refresh gate is open: the new entry is prepended, the list is
truncated to twelve elements, the stamp advances to `now`. -/
lemma maybe_generate_due (s : TransmissionState) (now : Nat)
    (h : GENERATION_INTERVAL_SECS ≤ now - s.last_generated_at) :
    maybe_generate_transmission s now =
      (true,
        { last_generated_at := now,
          entries :=
            { timestamp := now, time_label := clock_label_from_unix now,
              message := generate_scifi_message now s.entries.length } ::
              s.entries.take 11 }) := by
  unfold maybe_generate_transmission
  rw [if_neg (Nat.not_lt.mpr h)]
  rfl

/-- C1: for every state and every `now` with `now - last_generated_at ≥
10800` (truncated subtraction, i.e. the code's saturating difference — a
due refresh), `maybe_generate_transmission` returns `true` and produces a
state whose head entry carries `timestamp = now`, `time_label =
clock_label_from_unix now` and `message = generate_scifi_message now
(length of the old entries)`, whose length is `min (old length + 1) 12`,
whose surviving old entries are exactly the first eleven old entries in
order, and whose `last_generated_at` is `now`. -/
theorem C1_due_refresh_postcondition (s : TransmissionState) (now : Nat)
    (h : GENERATION_INTERVAL_SECS ≤ now - s.last_generated_at) :
    (maybe_generate_transmission s now).1 = true ∧
    (maybe_generate_transmission s now).2.last_generated_at = now ∧
    (maybe_generate_transmission s now).2.entries.head? =
      some { timestamp := now, time_label := clock_label_from_unix now,
             message := generate_scifi_message now s.entries.length } ∧
    (maybe_generate_transmission s now).2.entries.tail = s.entries.take 11 ∧
    (maybe_generate_transmission s now).2.entries.length =
      min (s.entries.length + 1) 12 := by
  rw [maybe_generate_due s now h]
  refine ⟨rfl, rfl, rfl, rfl, ?_⟩
  show (s.entries.take 11).length + 1 = min (s.entries.length + 1) 12
  rw [List.length_take]
  omega

/-- C1 witness: a concrete due refresh (empty seed list, stamp 0, clock at
10800). -/
theorem C1_due_refresh_postcondition_witness :
    (maybe_generate_transmission ⟨0, []⟩ 10800).1 = true ∧
    (maybe_generate_transmission ⟨0, []⟩ 10800).2.last_generated_at = 10800 ∧
    (maybe_generate_transmission ⟨0, []⟩ 10800).2.entries.head? =
      some { timestamp := 10800, time_label := clock_label_from_unix 10800,
             message := generate_scifi_message 10800 0 } ∧
    (maybe_generate_transmission ⟨0, []⟩ 10800).2.entries.tail = [] ∧
    (maybe_generate_transmission ⟨0, []⟩ 10800).2.entries.length = 1 :=
  C1_due_refresh_postcondition ⟨0, []⟩ 10800 (by decide)

/-- C2: whenever the truncated difference `now - last_generated_at` (zero
when `now < last_generated_at`, so clock skew cannot underflow) is below
10800 seconds, `maybe_generate_transmission` returns `false` and the state
is unchanged. -/
theorem C2_gate_shut_no_change (s : TransmissionState) (now : Nat)
    (h : now - s.last_generated_at < GENERATION_INTERVAL_SECS) :
    maybe_generate_transmission s now = (false, s) := by
  unfold maybe_generate_transmission
  rw [if_pos h]

/-- C2 witness: clock skew (`now = 50` before the stamp 100) keeps the
gate shut with the state untouched. -/
theorem C2_gate_shut_no_change_witness :
    maybe_generate_transmission ⟨100, []⟩ 50 = (false, ⟨100, []⟩) :=
  C2_gate_shut_no_change ⟨100, []⟩ 50 (by decide)

/-- C3 counterexample: with `last_generated_at = 0`, `now1 = 10000`,
`now2 = 10800` we have `now1 < now2` and `now2 - now1 < 10800`, yet the
call at `now1` is not due while the call at `now2` does mutate the state —
refuting "the call at now2 never mutates the state". -/
theorem C3_second_call_can_mutate :
    (10000 : Nat) < 10800 ∧
    (10800 : Nat) - 10000 < GENERATION_INTERVAL_SECS ∧
    (maybe_generate_transmission ⟨0, []⟩ 10000).1 = false ∧
    (maybe_generate_transmission
      (maybe_generate_transmission ⟨0, []⟩ 10000).2 10800).1 = true := by
  decide

/-- C3 (amended): for `now1 < now2` with `now2 - now1 < 10800` the two
successive calls mutate the state at most once — if the call at `now1`
mutates, the call at `now2` returns `false` and leaves the state unchanged
(the mutation may still happen at `now2` when the `now1` call was not
due). -/
theorem C3_at_most_one_mutation (s : TransmissionState) (now1 now2 : Nat)
    (h1 : now1 < now2) (h2 : now2 - now1 < GENERATION_INTERVAL_SECS)
    (hdue : (maybe_generate_transmission s now1).1 = true) :
    maybe_generate_transmission (maybe_generate_transmission s now1).2 now2 =
      (false, (maybe_generate_transmission s now1).2) := by
  by_cases hg : now1 - s.last_generated_at < GENERATION_INTERVAL_SECS
  · rw [maybe_generate_not_due s now1 hg] at hdue
    simp at hdue
  · push_neg at hg
    rw [maybe_generate_due s now1 hg]
    apply maybe_generate_not_due
    show now2 - now1 < GENERATION_INTERVAL_SECS
    exact h2

/-- C3 witness: a due first call at 10800 followed by a second call at
10801 that is a no-op. -/
theorem C3_at_most_one_mutation_witness :
    maybe_generate_transmission
      (maybe_generate_transmission ⟨0, []⟩ 10800).2 10801 =
      (false, (maybe_generate_transmission ⟨0, []⟩ 10800).2) :=
  C3_at_most_one_mutation ⟨0, []⟩ 10800 10801 (by decide) (by decide) (by decide)

/-- C4 counterexample: at load time `now = 10000` with an absent store the
seed timestamps are `[8800, 6700, 4200]`, i.e. `now - 1200, now - 3300,
now - 5800` in that order — not `now - 1200, now - 5800, now - 3300` as
the claim orders them. -/
theorem C4_seed_order_counterexample :
    ¬ ((load_transmissions none 10000).1.entries.map (fun e => e.timestamp) =
        [10000 - 1200, 10000 - 5800, 10000 - 3300]) := by
  decide

/-- C4 (amended): when the store is absent or unparseable (`parsed =
none`) or parses with an empty entries list, `load_transmissions` returns
the seed state — three entries timestamped `now - 1200`, `now - 3300`,
`now - 5800` in that order, carrying the section-6 messages in the
section's own order — and attempts to persist it. -/
theorem C4_load_seeds (parsed : Option TransmissionState) (now : Nat)
    (h : parsed = none ∨ ∃ t, parsed = some t ∧ t.entries = []) :
    load_transmissions parsed now = (default_transmissions now, true) ∧
    (default_transmissions now).entries =
      [{ timestamp := now - 1200,
         time_label := clock_label_from_unix (now - 1200),
         message := "Uplink stabilized. Archive index pushed to public relay." },
       { timestamp := now - 3300,
         time_label := clock_label_from_unix (now - 3300),
         message := "Detected repeating pattern in ambient static. Logged as anomaly A-17." },
       { timestamp := now - 5800,
         time_label := clock_label_from_unix (now - 5800),
         message := "Scheduled new broadcast: Deep Space Transmitter." }] := by
  refine ⟨?_, rfl⟩
  rcases h with h | ⟨t, ht, he⟩
  · rw [h]
    simp [load_transmissions]
  · rw [ht]
    simp [load_transmissions, he]

/-- C4 witness: loading from an absent store at `now = 10000`. -/
theorem C4_load_seeds_witness :
    load_transmissions none 10000 = (default_transmissions 10000, true) ∧
    (default_transmissions 10000).entries =
      [{ timestamp := 8800,
         time_label := clock_label_from_unix 8800,
         message := "Uplink stabilized. Archive index pushed to public relay." },
       { timestamp := 6700,
         time_label := clock_label_from_unix 6700,
         message := "Detected repeating pattern in ambient static. Logged as anomaly A-17." },
       { timestamp := 4200,
         time_label := clock_label_from_unix 4200,
         message := "Scheduled new broadcast: Deep Space Transmitter." }] :=
  C4_load_seeds none 10000 (Or.inl rfl)

/-- C5: `generate_scifi_message` is a pure function of its two arguments
(determinism is inherent in the embedding) and its value is exactly the
subject, action and object picked from the three fixed six-element word
lists at indices `(now / 7 + entry_count * 3) % 6`,
`(now / 11 + entry_count * 5) % 6` and `(now / 13 + entry_count * 7) % 6`
(integer division), joined with single spaces and a trailing period. -/
theorem C5_message_formula (now entry_count : Nat) :
    generate_scifi_message now entry_count =
      (["Long-range scanner", "Relay drone", "Pirate beacon",
        "Outer rim array", "Subspace receiver", "Navigation core"].getD
          ((now / 7 + entry_count * 3) % 6) "")
      ++ " " ++
      (["locked onto", "decoded", "flagged", "stabilized",
        "rerouted", "intercepted"].getD
          ((now / 11 + entry_count * 5) % 6) "")
      ++ " " ++
      (["a drifting colony ping", "an encrypted trader channel",
        "a rogue moon telemetry burst", "a hidden wormhole marker",
        "an ion storm distress packet", "a ghost-fleet handshake"].getD
          ((now / 13 + entry_count * 7) % 6) "")
      ++ "." :=
  rfl

/-- C6: the claimed fixed points hold (epoch day 0 ↦ 1970, day 11017 =
2000-03-01 ↦ 2000, day 10956 = 1999-12-31 ↦ 1999), but the function is
not correct for all day counts: day `-719529` lies in proleptic-Gregorian
year `-1` (it satisfies `daysToYear (-1) ≤ -719529 < daysToYear 0`), yet
the code returns `0`.  The port floor-divides (`div_euclid`) the value
`z - 146096` that was pre-adjusted for truncating division, so `era` is
one too small for most negative `z`. -/
theorem C6_year_from_unix_days_bug :
    year_from_unix_days 0 = 1970 ∧
    year_from_unix_days 11017 = 2000 ∧
    year_from_unix_days 10956 = 1999 ∧
    year_from_unix_days (-719529) = 0 ∧
    daysToYear (-1) ≤ -719529 ∧ (-719529 : Int) < daysToYear 0 := by
  decide

/-- C7: `last_generated_at` never decreases under
`maybe_generate_transmission`, and a mutation sets it to a `now` at least
10800 seconds past the previous value. -/
theorem C7_last_generated_monotone (s : TransmissionState) (now : Nat) :
    s.last_generated_at ≤
      (maybe_generate_transmission s now).2.last_generated_at ∧
    ((maybe_generate_transmission s now).1 = true →
      (maybe_generate_transmission s now).2.last_generated_at = now ∧
      s.last_generated_at + GENERATION_INTERVAL_SECS ≤ now) := by
  by_cases hg : now - s.last_generated_at < GENERATION_INTERVAL_SECS
  · rw [maybe_generate_not_due s now hg]
    exact ⟨Nat.le_refl _, fun hf => by simp at hf⟩
  · push_neg at hg
    rw [interval_eq] at hg
    rw [maybe_generate_due s now hg]
    refine ⟨?_, fun _ => ⟨rfl, ?_⟩⟩
    · show s.last_generated_at ≤ now
      omega
    · show s.last_generated_at + 10800 ≤ now
      omega

/-- C9: the seed timestamps are computed with saturating subtraction: cast
to the integers they are `max (now - 1200) 0`, `max (now - 3300) 0`,
`max (now - 5800) 0` (so for `now < 5800` they clamp at zero; the `Nat`
embedding is total, so no underflow or panic is possible). -/
theorem C9_seed_saturating_timestamps (now : Nat) :
    ((default_transmissions now).entries.map fun e => (e.timestamp : Int)) =
      [max ((now : Int) - 1200) 0, max ((now : Int) - 3300) 0,
       max ((now : Int) - 5800) 0] := by
  simp only [default_transmissions, List.map_cons, List.map_nil,
    List.cons.injEq, and_true]
  refine ⟨?_, ?_, ?_⟩ <;> omega

/-- C10: the seed state stamps `last_generated_at` with the load time
`now` itself, so any refresh at a time with truncated difference from
`now` below 10800 seconds (including the startup pass) is a no-op. -/
theorem C10_seed_gate_shut (now nxt : Nat)
    (h : nxt - now < GENERATION_INTERVAL_SECS) :
    (default_transmissions now).last_generated_at = now ∧
    maybe_generate_transmission (default_transmissions now) nxt =
      (false, default_transmissions now) :=
  ⟨rfl, maybe_generate_not_due (default_transmissions now) nxt h⟩

/-- C10 witness: seeding at 5000 and refreshing at 6000 changes nothing. -/
theorem C10_seed_gate_shut_witness :
    (default_transmissions 5000).last_generated_at = 5000 ∧
    maybe_generate_transmission (default_transmissions 5000) 6000 =
      (false, default_transmissions 5000) :=
  C10_seed_gate_shut 5000 6000 (by decide)
